import Mathlib

/- Shallow embedding of the telehealth canister
(src/dfinity_js_backend/src/index.ts): the entity records, one key-value
store per entity type, and the create/read/update handlers that the
verified claims refer to.  JavaScript string falsiness (!s) is modelled
as equality with "", bigint falsiness (!n) as equality with 0, and the
nondeterministic inputs of a handler (the generated uuid, the caller
principal, the current time) are passed as explicit arguments.
JavaScript Number arithmetic in the BMI calculator is modelled exactly
over the rationals. -/

set_option autoImplicit false

namespace TeleHealth

/-- Association-list implementation of the per-entity key-value store
(the canister uses a StableBTreeMap with get / insert-or-replace /
values). -/
def lookupKey {α : Type} : List (String × α) → String → Option α
  | [], _ => none
  | (k1, v) :: t, k => if k1 = k then some v else lookupKey t k

/-- Insert-or-replace on the underlying entry list. -/
def insertKey {α : Type} : List (String × α) → String → α → List (String × α)
  | [], k, v => [(k, v)]
  | (k1, v1) :: t, k, v => if k1 = k then (k, v) :: t else (k1, v1) :: insertKey t k v

/-- One entity store: a key-value map from generated id strings to
records, with get / insert-or-replace / values. -/
structure Store (α : Type) where
  entries : List (String × α)
deriving DecidableEq

/-- Lookup by key, as the StableBTreeMap get. -/
def Store.get {α : Type} (s : Store α) (k : String) : Option α :=
  lookupKey s.entries k

/-- Insert-or-replace, as the StableBTreeMap insert. -/
def Store.insert {α : Type} (s : Store α) (k : String) (v : α) : Store α :=
  ⟨insertKey s.entries k v⟩

/-- Sequence of all stored values, as the StableBTreeMap values(). -/
def Store.values {α : Type} (s : Store α) : List α :=
  s.entries.map Prod.snd

structure Department where
  id : String
  name : String
  description : String
deriving DecidableEq

structure Doctor where
  id : String
  owner : String
  name : String
  department_id : String
  image : String
deriving DecidableEq

structure EmergencyContact where
  name : String
  phone_number : String
  relationship : String
deriving DecidableEq

structure Patient where
  id : String
  owner : String
  name : String
  age : Nat
  gender : String
  phone_number : String
  email : String
  address : String
  emergency_contact : EmergencyContact
  allergies : List String
  current_medications : List String
  medical_history : List String
deriving DecidableEq

structure Consultation where
  id : String
  patient_id : String
  problem : String
  department_id : String
deriving DecidableEq

structure Chat where
  id : String
  patient_id : String
  doctor_id : String
  message : String
  timestamp : String
deriving DecidableEq

structure Appointment where
  id : String
  patient_id : String
  doctor_id : String
  reason : String
  appointment_time : String
  status : String
  video_link : Option String
deriving DecidableEq

structure Prescription where
  id : String
  patient_id : String
  doctor_id : String
  medications : List String
  instructions : String
  issued_at : String
deriving DecidableEq

structure Payment where
  id : String
  appointment_id : String
  patient_id : String
  amount : Nat
  status : String
  payment_method : String
deriving DecidableEq

structure MedicalRecord where
  patient_id : String
  consultation_notes : List String
  prescriptions : List Prescription
  lab_results : List String
  immunizations : List String
deriving DecidableEq

/-- Tagged error/result vocabulary of the canister (the Message variant). -/
inductive Message where
  | Success : String → Message
  | Error : String → Message
  | NotFound : String → Message
  | InvalidPayload : String → Message
  | PaymentFailed : String → Message
  | PaymentCompleted : String → Message
deriving DecidableEq

structure CreateDepartmentPayload where
  name : String
  description : String
deriving DecidableEq

structure CreateDoctorPayload where
  name : String
  department_id : String
  image : String
deriving DecidableEq

structure CreatePatientPayload where
  name : String
  age : Nat
  gender : String
  phone_number : String
  email : String
  address : String
  emergency_contact : EmergencyContact
  allergies : List String
  current_medications : List String
  medical_history : List String
deriving DecidableEq

structure CreateConsultationPayload where
  patient_id : String
  problem : String
  department_id : String
deriving DecidableEq

structure CreateChatPayload where
  patient_id : String
  doctor_id : String
  message : String
  timestamp : String
deriving DecidableEq

structure CreateAppointmentPayload where
  patient_id : String
  doctor_id : String
  reason : String
  appointment_time : String
deriving DecidableEq

structure CreatePrescriptionPayload where
  patient_id : String
  doctor_id : String
  medications : List String
  instructions : String
deriving DecidableEq

structure CreatePaymentPayload where
  patient_id : String
  appointment_id : String
  amount : Nat
  payment_method : String
deriving DecidableEq

/-- The nine entity stores of the canister, one per entity type. -/
structure State where
  departments : Store Department
  doctors : Store Doctor
  patients : Store Patient
  consultations : Store Consultation
  chats : Store Chat
  appointments : Store Appointment
  prescriptions : Store Prescription
  payments : Store Payment
  medicalRecords : Store MedicalRecord
deriving DecidableEq

/-- The canister state with every store empty. -/
def emptyState : State :=
  ⟨⟨[]⟩, ⟨[]⟩, ⟨[]⟩, ⟨[]⟩, ⟨[]⟩, ⟨[]⟩, ⟨[]⟩, ⟨[]⟩, ⟨[]⟩⟩

/-- createDepartment: reject an empty name, reject a name equal to any
stored department name (case-sensitive full scan), otherwise store the
new department under the generated id. -/
def createDepartment (s : State) (newId : String) (p : CreateDepartmentPayload) :
    Except Message Department × State :=
  if p.name = "" then
    (Except.error (Message.InvalidPayload "Missing required fields"), s)
  else if s.departments.values.any (fun d => d.name == p.name) then
    (Except.error (Message.InvalidPayload "Department name must be unique"), s)
  else
    let department : Department := { id := newId, name := p.name, description := p.description }
    (Except.ok department, { s with departments := s.departments.insert newId department })

/-- getDepartmentById: store lookup, NotFound when absent. -/
def getDepartmentById (s : State) (departmentId : String) : Except Message Department :=
  match s.departments.get departmentId with
  | none => Except.error (Message.NotFound ("Department with id=" ++ departmentId ++ " not found"))
  | some d => Except.ok d

/-- getAllDepartments: NotFound when the store is empty, else all values. -/
def getAllDepartments (s : State) : Except Message (List Department) :=
  let departments := s.departments.values
  if departments.length = 0 then Except.error (Message.NotFound "No departments found")
  else Except.ok departments

/-- createDoctor: required fields, then the department must resolve; the
owner is stamped from the caller. -/
def createDoctor (s : State) (newId caller : String) (p : CreateDoctorPayload) :
    Except Message Doctor × State :=
  if p.name = "" ∨ p.department_id = "" ∨ p.image = "" then
    (Except.error (Message.InvalidPayload "Missing required fields"), s)
  else
    match s.departments.get p.department_id with
    | none =>
        (Except.error (Message.InvalidPayload
          ("Department with id=" ++ p.department_id ++ " not found")), s)
    | some _ =>
        let doctor : Doctor :=
          { id := newId, name := p.name, department_id := p.department_id,
            image := p.image, owner := caller }
        (Except.ok doctor, { s with doctors := s.doctors.insert newId doctor })

/-- getDoctorById: store lookup, NotFound when absent. -/
def getDoctorById (s : State) (doctorId : String) : Except Message Doctor :=
  match s.doctors.get doctorId with
  | none => Except.error (Message.NotFound ("Doctor with id=" ++ doctorId ++ " not found"))
  | some d => Except.ok d

/-- getDoctorByDepartment: full scan filtered on department_id, NotFound
on an empty result. -/
def getDoctorByDepartment (s : State) (departmentId : String) :
    Except Message (List Doctor) :=
  let doctors := s.doctors.values.filter (fun d => d.department_id == departmentId)
  if doctors.length = 0 then
    Except.error (Message.NotFound ("No doctors found for department id=" ++ departmentId))
  else Except.ok doctors

/-- getAllDoctors: NotFound when the store is empty, else all values. -/
def getAllDoctors (s : State) : Except Message (List Doctor) :=
  let doctors := s.doctors.values
  if doctors.length = 0 then Except.error (Message.NotFound "No doctors found")
  else Except.ok doctors

/-- createPatient: the source validates only the name (empty-string
falsiness) and a never-true age === undefined check; the owner is
stamped from the caller. -/
def createPatient (s : State) (newId caller : String) (p : CreatePatientPayload) :
    Except Message Patient × State :=
  if p.name = "" then
    (Except.error (Message.InvalidPayload "Missing required fields"), s)
  else
    let patient : Patient :=
      { name := p.name, age := p.age, gender := p.gender,
        phone_number := p.phone_number, email := p.email, address := p.address,
        emergency_contact := p.emergency_contact, allergies := p.allergies,
        current_medications := p.current_medications,
        medical_history := p.medical_history, id := newId, owner := caller }
    (Except.ok patient, { s with patients := s.patients.insert newId patient })

/-- getPatientById: store lookup, NotFound when absent. -/
def getPatientById (s : State) (patientId : String) : Except Message Patient :=
  match s.patients.get patientId with
  | none => Except.error (Message.NotFound ("Patient with id=" ++ patientId ++ " not found"))
  | some pt => Except.ok pt

/-- getAllPatients: NotFound when the store is empty, else all values. -/
def getAllPatients (s : State) : Except Message (List Patient) :=
  let patients := s.patients.values
  if patients.length = 0 then Except.error (Message.NotFound "No patients found")
  else Except.ok patients

/-- createConsultation: required fields, then patient and department
must resolve in their stores. -/
def createConsultation (s : State) (newId : String) (p : CreateConsultationPayload) :
    Except Message Consultation × State :=
  if p.patient_id = "" ∨ p.problem = "" ∨ p.department_id = "" then
    (Except.error (Message.InvalidPayload "Missing required fields"), s)
  else
    match s.patients.get p.patient_id with
    | none =>
        (Except.error (Message.InvalidPayload
          ("Patient with id=" ++ p.patient_id ++ " not found")), s)
    | some _ =>
        match s.departments.get p.department_id with
        | none =>
            (Except.error (Message.InvalidPayload
              ("Department with id=" ++ p.department_id ++ " not found")), s)
        | some _ =>
            let consultation : Consultation :=
              { patient_id := p.patient_id, problem := p.problem,
                department_id := p.department_id, id := newId }
            (Except.ok consultation,
              { s with consultations := s.consultations.insert newId consultation })

/-- getConsultationById: store lookup, NotFound when absent. -/
def getConsultationById (s : State) (consultationId : String) : Except Message Consultation :=
  match s.consultations.get consultationId with
  | none =>
      Except.error (Message.NotFound ("Consultation with id=" ++ consultationId ++ " not found"))
  | some c => Except.ok c

/-- getAllConsultations: NotFound when the store is empty, else all values. -/
def getAllConsultations (s : State) : Except Message (List Consultation) :=
  let consultations := s.consultations.values
  if consultations.length = 0 then Except.error (Message.NotFound "No consultations found")
  else Except.ok consultations

/-- createChat: required fields, then patient and doctor must resolve. -/
def createChat (s : State) (newId : String) (p : CreateChatPayload) :
    Except Message Chat × State :=
  if p.patient_id = "" ∨ p.doctor_id = "" ∨ p.message = "" ∨ p.timestamp = "" then
    (Except.error (Message.InvalidPayload "Missing required fields"), s)
  else
    match s.patients.get p.patient_id with
    | none =>
        (Except.error (Message.InvalidPayload
          ("Patient with id=" ++ p.patient_id ++ " not found")), s)
    | some _ =>
        match s.doctors.get p.doctor_id with
        | none =>
            (Except.error (Message.InvalidPayload
              ("Doctor with id=" ++ p.doctor_id ++ " not found")), s)
        | some _ =>
            let chat : Chat :=
              { patient_id := p.patient_id, doctor_id := p.doctor_id,
                message := p.message, timestamp := p.timestamp, id := newId }
            (Except.ok chat, { s with chats := s.chats.insert newId chat })

/-- getChatById: store lookup, NotFound when absent. -/
def getChatById (s : State) (chatId : String) : Except Message Chat :=
  match s.chats.get chatId with
  | none => Except.error (Message.NotFound ("Chat with id=" ++ chatId ++ " not found"))
  | some c => Except.ok c

/-- getAllChats: NotFound when the store is empty, else all values. -/
def getAllChats (s : State) : Except Message (List Chat) :=
  let chats := s.chats.values
  if chats.length = 0 then Except.error (Message.NotFound "No chats found")
  else Except.ok chats

/-- updatePatient: NotFound when absent, else spread the full payload
over the old record (id and owner are the only fields the payload does
not carry, so they survive from the old record). -/
def updatePatient (s : State) (patientId : String) (p : CreatePatientPayload) :
    Except Message Patient × State :=
  match s.patients.get patientId with
  | none => (Except.error (Message.NotFound ("Patient with id=" ++ patientId ++ " not found")), s)
  | some old =>
      let updated : Patient :=
        { id := old.id, owner := old.owner, name := p.name, age := p.age,
          gender := p.gender, phone_number := p.phone_number, email := p.email,
          address := p.address, emergency_contact := p.emergency_contact,
          allergies := p.allergies, current_medications := p.current_medications,
          medical_history := p.medical_history }
      (Except.ok updated, { s with patients := s.patients.insert patientId updated })

/-- getConsultationHistoryByPatient: full scan filtered on patient_id,
NotFound on an empty result. -/
def getConsultationHistoryByPatient (s : State) (patientId : String) :
    Except Message (List Consultation) :=
  let consultations := s.consultations.values.filter (fun c => c.patient_id == patientId)
  if consultations.length = 0 then
    Except.error (Message.NotFound ("No consultations found for patient id=" ++ patientId))
  else Except.ok consultations

/-- updateDoctorAvailability: NotFound when absent, else re-store the
doctor.  The source attaches an untyped available boolean that is not
part of the declared Doctor record shape, so it has no counterpart in
the typed store value; all declared fields are unchanged. -/
def updateDoctorAvailability (s : State) (doctorId : String) (_availability : Bool) :
    Except Message Doctor × State :=
  match s.doctors.get doctorId with
  | none => (Except.error (Message.NotFound ("Doctor with id=" ++ doctorId ++ " not found")), s)
  | some old =>
      (Except.ok old, { s with doctors := s.doctors.insert doctorId old })

/-- JavaScript String.prototype.includes: the empty needle always
matches, a non-empty needle matches iff splitting on it produces at
least two pieces. -/
def jsIncludes (hay sub : String) : Bool :=
  (sub == "") || decide (2 ≤ (hay.splitOn sub).length)

/-- searchDoctorByName: case-insensitive substring scan, NotFound on an
empty result. -/
def searchDoctorByName (s : State) (name : String) : Except Message (List Doctor) :=
  let matching := s.doctors.values.filter (fun d => jsIncludes d.name.toLower name.toLower)
  if matching.length = 0 then
    Except.error (Message.NotFound
      ("No doctors found with name containing \x27" ++ name ++ "\x27"))
  else Except.ok matching

/-- searchDepartmentByName: case-insensitive substring scan, NotFound on
an empty result. -/
def searchDepartmentByName (s : State) (name : String) : Except Message (List Department) :=
  let matching := s.departments.values.filter (fun d => jsIncludes d.name.toLower name.toLower)
  if matching.length = 0 then
    Except.error (Message.NotFound
      ("No departments found with name containing \x27" ++ name ++ "\x27"))
  else Except.ok matching

/-- updateDoctor: NotFound when absent, else spread the full payload
over the old record (id and owner survive from the old record). -/
def updateDoctor (s : State) (doctorId : String) (p : CreateDoctorPayload) :
    Except Message Doctor × State :=
  match s.doctors.get doctorId with
  | none => (Except.error (Message.NotFound ("Doctor with id=" ++ doctorId ++ " not found")), s)
  | some old =>
      let updated : Doctor :=
        { id := old.id, owner := old.owner, name := p.name,
          department_id := p.department_id, image := p.image }
      (Except.ok updated, { s with doctors := s.doctors.insert doctorId updated })

/-- createAppointment: required fields, then patient and doctor must
resolve; status starts scheduled with no video link. -/
def createAppointment (s : State) (newId : String) (p : CreateAppointmentPayload) :
    Except Message Appointment × State :=
  if p.patient_id = "" ∨ p.doctor_id = "" ∨ p.reason = "" ∨ p.appointment_time = "" then
    (Except.error (Message.InvalidPayload "Missing required fields"), s)
  else
    match s.patients.get p.patient_id with
    | none =>
        (Except.error (Message.InvalidPayload
          ("Patient with id=" ++ p.patient_id ++ " not found")), s)
    | some _ =>
        match s.doctors.get p.doctor_id with
        | none =>
            (Except.error (Message.InvalidPayload
              ("Doctor with id=" ++ p.doctor_id ++ " not found")), s)
        | some _ =>
            let appointment : Appointment :=
              { patient_id := p.patient_id, doctor_id := p.doctor_id,
                reason := p.reason, appointment_time := p.appointment_time,
                id := newId, status := "scheduled", video_link := none }
            (Except.ok appointment,
              { s with appointments := s.appointments.insert newId appointment })

/-- updateAppointmentWithVideoLink: the source guards with
!videoLink && videoLink.length === 0, i.e. exactly the empty link;
then NotFound when the appointment is absent, else set the link. -/
def updateAppointmentWithVideoLink (s : State) (appointmentId videoLink : String) :
    Except Message Appointment × State :=
  if videoLink = "" ∧ videoLink.length = 0 then
    (Except.error (Message.InvalidPayload "Missing required fields"), s)
  else
    match s.appointments.get appointmentId with
    | none =>
        (Except.error (Message.NotFound
          ("Appointment with id=" ++ appointmentId ++ " not found")), s)
    | some old =>
        let updated : Appointment := { old with video_link := some videoLink }
        (Except.ok updated,
          { s with appointments := s.appointments.insert appointmentId updated })

/-- createPrescription: required fields (a JavaScript array is always
truthy, so the medications check of the source never fires), then
patient and doctor must resolve; issued_at is stamped server-side. -/
def createPrescription (s : State) (newId now : String) (p : CreatePrescriptionPayload) :
    Except Message Prescription × State :=
  if p.patient_id = "" ∨ p.doctor_id = "" ∨ p.instructions = "" then
    (Except.error (Message.InvalidPayload "Missing required fields"), s)
  else
    match s.patients.get p.patient_id with
    | none =>
        (Except.error (Message.InvalidPayload
          ("Patient with id=" ++ p.patient_id ++ " not found")), s)
    | some _ =>
        match s.doctors.get p.doctor_id with
        | none =>
            (Except.error (Message.InvalidPayload
              ("Doctor with id=" ++ p.doctor_id ++ " not found")), s)
        | some _ =>
            let prescription : Prescription :=
              { patient_id := p.patient_id, doctor_id := p.doctor_id,
                medications := p.medications, instructions := p.instructions,
                id := newId, issued_at := now }
            (Except.ok prescription,
              { s with prescriptions := s.prescriptions.insert newId prescription })

/-- initiatePayment: required fields — note that bigint falsiness makes
!payload.amount reject exactly amount = 0 — then patient and
appointment must resolve; status starts pending. -/
def initiatePayment (s : State) (newId : String) (p : CreatePaymentPayload) :
    Except Message Payment × State :=
  if p.patient_id = "" ∨ p.appointment_id = "" ∨ p.amount = 0 ∨ p.payment_method = "" then
    (Except.error (Message.InvalidPayload "Missing required fields"), s)
  else
    match s.patients.get p.patient_id with
    | none =>
        (Except.error (Message.InvalidPayload
          ("Patient with id=" ++ p.patient_id ++ " not found")), s)
    | some _ =>
        match s.appointments.get p.appointment_id with
        | none =>
            (Except.error (Message.InvalidPayload
              ("Appointment with id=" ++ p.appointment_id ++ " not found")), s)
        | some _ =>
            let payment : Payment :=
              { patient_id := p.patient_id, appointment_id := p.appointment_id,
                amount := p.amount, payment_method := p.payment_method,
                id := newId, status := "pending" }
            (Except.ok payment, { s with payments := s.payments.insert newId payment })

/-- updatePaymentStatus: NotFound when absent, else overwrite the status
with no state-machine validation. -/
def updatePaymentStatus (s : State) (paymentId newStatus : String) :
    Except Message Payment × State :=
  match s.payments.get paymentId with
  | none => (Except.error (Message.NotFound ("Payment with id=" ++ paymentId ++ " not found")), s)
  | some old =>
      let updated : Payment := { old with status := newStatus }
      (Except.ok updated, { s with payments := s.payments.insert paymentId updated })

/-- getMedicalRecordsByPatient: store lookup keyed by patient id,
NotFound when absent. -/
def getMedicalRecordsByPatient (s : State) (patientId : String) :
    Except Message MedicalRecord :=
  match s.medicalRecords.get patientId with
  | none =>
      Except.error (Message.NotFound
        ("Medical records for patient id=" ++ patientId ++ " not found"))
  | some r => Except.ok r

/-- updateMedicalRecords: unconditional insert-or-replace under the
patient id key, with no lookup and no validation of any kind. -/
def updateMedicalRecords (s : State) (patientId : String) (updatedRecords : MedicalRecord) :
    Except Message MedicalRecord × State :=
  (Except.ok updatedRecords,
    { s with medicalRecords := s.medicalRecords.insert patientId updatedRecords })

/-- Round a rational to the nearest integer, ties to even — the IEEE
754 default rounding used by every JavaScript Number operation. -/
def roundNearestEven (q : ℚ) : ℤ :=
  let f : ℤ := ⌊q⌋
  if q - f < 1 / 2 then f
  else if 1 / 2 < q - f then f + 1
  else if f % 2 = 0 then f else f + 1

/-- Round a rational to the nearest IEEE 754 binary64 double (53-bit
significand, round to nearest, ties to even), as the exact rational it
represents.  Overflow and subnormals are not modelled: this is faithful
to binary64 on the normal range, which contains every value arising in
calculateBMI from nat64 inputs with nonzero height (all magnitudes lie
between 2^-120 and 2^80, far from both ends of the double range). -/
def roundDouble (q : ℚ) : ℚ :=
  if q = 0 then 0
  else if 0 < q then
    (roundNearestEven (q / (2 : ℚ) ^ (Int.log 2 q - 52)) : ℚ) * (2 : ℚ) ^ (Int.log 2 q - 52)
  else
    -((roundNearestEven (-q / (2 : ℚ) ^ (Int.log 2 (-q) - 52)) : ℚ) *
      (2 : ℚ) ^ (Int.log 2 (-q) - 52))

/-- BMI category thresholds of the source: below 18.5 Underweight,
below 24.9 Normal Weight, below 29.9 Overweight, else Obese.  The
source literals are double constants, so each threshold is the nearest
binary64 value of the decimal (18.5 is exact; 24.9 and 29.9 are not). -/
def bmiCategory (bmi : ℚ) : String :=
  if bmi < roundDouble (185 / 10) then "Underweight"
  else if bmi < roundDouble (249 / 10) then "Normal Weight"
  else if bmi < roundDouble (299 / 10) then "Overweight"
  else "Obese"

/-- JavaScript Number.prototype.toFixed(2) on the exact rational value
of a double: the integer n closest to 100 * q, ties resolved to the
larger n, printed with two fractional digits.  This models toFixed for
nonnegative arguments below 10^21; at and above that threshold the
source falls back to exponential toString, which for calculateBMI would
require a body weight above 10^17 kg. -/
def toFixed2 (q : ℚ) : String :=
  let n : ℤ := ⌊q * 100 + 1 / 2⌋
  toString (n / 100) ++ "." ++
    (if n % 100 < 10 then "0" ++ toString (n % 100) else toString (n % 100))

/-- The double value of weight / (height/100)^2 as the source computes
it: Number conversion of each nat64, then one binary64 rounding per
arithmetic operation (the division by the exact constant 100, the
square, and the final division). -/
def bmiDouble (weight height : Nat) : ℚ :=
  let weightInKg : ℚ := roundDouble (weight : ℚ)
  let heightInMeters : ℚ := roundDouble (roundDouble (height : ℚ) / 100)
  roundDouble (weightInKg / roundDouble (heightInMeters * heightInMeters))

/-- calculateBMI: error on zero height, else the double evaluation of
weight / (height in metres)^2 formatted to two decimals with its
category.  The source also guards against a non-finite result; for
nat64 inputs and nonzero height the double computation never overflows,
so that guard cannot fire. -/
def calculateBMI (weight height : Nat) : Except Message String :=
  if height = 0 then Except.error (Message.Error "Height cannot be zero.")
  else
    let bmi : ℚ := bmiDouble weight height
    Except.ok ("BMI is " ++ toFixed2 bmi ++ " - " ++ bmiCategory bmi)

/-- A concrete patient record used to exercise the handlers. -/
def pat0 : Patient :=
  { id := "p1", owner := "own", name := "Ann", age := 30, gender := "F",
    phone_number := "07", email := "a@b", address := "addr",
    emergency_contact := { name := "N", phone_number := "08", relationship := "Parent" },
    allergies := [], current_medications := [], medical_history := [] }

/-- A concrete scheduled appointment used to exercise the handlers. -/
def apt0 : Appointment :=
  { id := "a1", patient_id := "p1", doctor_id := "d1", reason := "checkup",
    appointment_time := "t1", status := "scheduled", video_link := none }

/-- A concrete doctor record used to exercise the handlers. -/
def doc0 : Doctor :=
  { id := "d1", owner := "own", name := "Bob", department_id := "dep1", image := "img" }

/-- A concrete empty medical record used to exercise the handlers. -/
def med0 : MedicalRecord :=
  { patient_id := "p9", consultation_notes := [], prescriptions := [],
    lab_results := [], immunizations := [] }

/-- A state holding exactly one patient. -/
def sP : State := { emptyState with patients := ⟨[("p1", pat0)]⟩ }

/-- A state holding exactly one doctor. -/
def sD : State := { emptyState with doctors := ⟨[("d1", doc0)]⟩ }

/-- A state holding one patient and one appointment. -/
def sPA : State :=
  { emptyState with patients := ⟨[("p1", pat0)]⟩, appointments := ⟨[("a1", apt0)]⟩ }

/-- A patient creation payload whose name is present but whose gender,
phone number, email and address are all empty strings. -/
def patPayloadBlank : CreatePatientPayload :=
  { name := "Ann", age := 30, gender := "", phone_number := "", email := "",
    address := "", emergency_contact := { name := "", phone_number := "", relationship := "" },
    allergies := [], current_medications := [], medical_history := [] }

/-- The patient record that createPatient builds from patPayloadBlank
under id i1 and caller own. -/
def patBlank : Patient :=
  { id := "i1", owner := "own", name := "Ann", age := 30, gender := "",
    phone_number := "", email := "", address := "",
    emergency_contact := { name := "", phone_number := "", relationship := "" },
    allergies := [], current_medications := [], medical_history := [] }

/-- A doctor update payload used to exercise updateDoctor. -/
def docPayload1 : CreateDoctorPayload :=
  { name := "Carol", department_id := "dep2", image := "img2" }

/-- A full patient update payload used to exercise updatePatient. -/
def patPayload1 : CreatePatientPayload :=
  { name := "Anne", age := 31, gender := "F", phone_number := "09", email := "c@d",
    address := "addr2", emergency_contact := { name := "M", phone_number := "01", relationship := "Spouse" },
    allergies := ["dust"], current_medications := [], medical_history := [] }

theorem lookupKey_insertKey_self {α : Type} (l : List (String × α)) (k : String) (v : α) :
    lookupKey (insertKey l k v) k = some v := by
  induction l with
  | nil => simp [insertKey, lookupKey]
  | cons hd t ih =>
      obtain ⟨k1, v1⟩ := hd
      by_cases hk : k1 = k <;> simp [insertKey, lookupKey, hk, ih]

theorem lookupKey_insertKey_ne {α : Type} (l : List (String × α)) (k k2 : String) (v : α)
    (h : k2 ≠ k) : lookupKey (insertKey l k v) k2 = lookupKey l k2 := by
  have h2 : ¬ k = k2 := fun hh => h hh.symm
  induction l with
  | nil => simp [insertKey, lookupKey, h2]
  | cons hd t ih =>
      obtain ⟨k1, v1⟩ := hd
      simp only [insertKey]
      by_cases hk : k1 = k
      · rw [if_pos hk]
        subst hk
        simp [lookupKey, h2]
      · rw [if_neg hk]
        simp only [lookupKey]
        by_cases hk2 : k1 = k2
        · rw [if_pos hk2, if_pos hk2]
        · rw [if_neg hk2, if_neg hk2]
          exact ih

theorem Store.get_insert_self {α : Type} (s : Store α) (k : String) (v : α) :
    (s.insert k v).get k = some v :=
  lookupKey_insertKey_self s.entries k v

theorem Store.get_insert_ne {α : Type} (s : Store α) (k k2 : String) (v : α) (h : k2 ≠ k) :
    (s.insert k v).get k2 = s.get k2 :=
  lookupKey_insertKey_ne s.entries k k2 v h

theorem mem_values_insert {α : Type} (l : List (String × α)) (k : String) (v x : α)
    (h : x ∈ (insertKey l k v).map Prod.snd) : x ∈ l.map Prod.snd ∨ x = v := by
  induction l with
  | nil =>
      simp [insertKey] at h
      exact Or.inr h
  | cons hd t ih =>
      obtain ⟨k1, v1⟩ := hd
      by_cases hk : k1 = k
      · simp [insertKey, hk] at h
        rcases h with h | h
        · exact Or.inr h
        · exact Or.inl (by simp [h])
      · simp [insertKey, hk] at h
        rcases h with h | h
        · exact Or.inl (by simp [h])
        · rcases ih (by simpa using h) with h2 | h2
          · exact Or.inl (by simp at h2 ⊢; exact Or.inr h2)
          · exact Or.inr h2

/-- C10: updateMedicalRecords always returns Ok of the given records and
stores them under the patientId key unconditionally — with no
prior-record lookup, no check that the patientId resolves to a Patient,
and no check relating records.patient_id to the key — replacing any
prior entry wholesale while leaving every other store untouched. -/
theorem updateMedicalRecords_upsert :
    ∀ (s : State) (pid : String) (r : MedicalRecord),
      updateMedicalRecords s pid r =
        (Except.ok r, { s with medicalRecords := s.medicalRecords.insert pid r }) ∧
      (updateMedicalRecords s pid r).2.medicalRecords.get pid = some r ∧
      (updateMedicalRecords s pid r).2.patients = s.patients ∧
      (updateMedicalRecords s pid r).2.departments = s.departments ∧
      (updateMedicalRecords s pid r).2.doctors = s.doctors :=
  fun s pid r => ⟨rfl, Store.get_insert_self s.medicalRecords pid r, rfl, rfl, rfl⟩

/-- C9: a successful updatePatient or updateDoctor keeps the stored
record's id and owner fields from the prior record — the update payload
types carry neither field, so the spread cannot alter caller identity
stamped at creation. -/
theorem update_preserves_identity :
    (∀ (s : State) (pid : String) (p : CreatePatientPayload) (old : Patient),
      s.patients.get pid = some old →
      ∃ upd : Patient,
        updatePatient s pid p = (Except.ok upd, { s with patients := s.patients.insert pid upd }) ∧
        upd.id = old.id ∧ upd.owner = old.owner) ∧
    (∀ (s : State) (did : String) (p : CreateDoctorPayload) (old : Doctor),
      s.doctors.get did = some old →
      ∃ upd : Doctor,
        updateDoctor s did p = (Except.ok upd, { s with doctors := s.doctors.insert did upd }) ∧
        upd.id = old.id ∧ upd.owner = old.owner) := by
  constructor
  · intro s pid p old h
    refine ⟨⟨old.id, old.owner, p.name, p.age, p.gender, p.phone_number, p.email,
      p.address, p.emergency_contact, p.allergies, p.current_medications,
      p.medical_history⟩, ?_, rfl, rfl⟩
    simp [updatePatient, h]
  · intro s did p old h
    refine ⟨⟨old.id, old.owner, p.name, p.department_id, p.image⟩, ?_, rfl, rfl⟩
    simp [updateDoctor, h]

/-- Witness for C9 at a concrete patient and a concrete doctor. -/
theorem update_preserves_identity_wit :
    (∃ upd : Patient,
      updatePatient sP "p1" patPayload1 = (Except.ok upd, { sP with patients := sP.patients.insert "p1" upd }) ∧
      upd.id = pat0.id ∧ upd.owner = pat0.owner) ∧
    (∃ upd : Doctor,
      updateDoctor sD "d1" docPayload1 = (Except.ok upd, { sD with doctors := sD.doctors.insert "d1" upd }) ∧
      upd.id = doc0.id ∧ upd.owner = doc0.owner) :=
  ⟨update_preserves_identity.1 sP "p1" patPayload1 pat0 rfl,
   update_preserves_identity.2 sD "d1" docPayload1 doc0 rfl⟩

/-- C4 (amended): createPatient rejects only an empty name with
InvalidPayload "Missing required fields" and stores nothing; an empty
gender, phone_number, email or address does not cause rejection — the
patient is created and stored with those empty fields. -/
theorem createPatient_validation :
    (∀ (s : State) (nid caller : String) (p : CreatePatientPayload), p.name = "" →
      createPatient s nid caller p =
        (Except.error (Message.InvalidPayload "Missing required fields"), s)) ∧
    (∀ (s : State) (nid caller : String) (p : CreatePatientPayload), p.name ≠ "" →
      ∃ pat : Patient,
        createPatient s nid caller p = (Except.ok pat, { s with patients := s.patients.insert nid pat }) ∧
        pat.id = nid ∧ pat.owner = caller ∧ pat.gender = p.gender ∧
        pat.phone_number = p.phone_number ∧ pat.email = p.email ∧ pat.address = p.address) := by
  constructor
  · intro s nid caller p h
    simp [createPatient, h]
  · intro s nid caller p h
    refine ⟨⟨nid, caller, p.name, p.age, p.gender, p.phone_number, p.email,
      p.address, p.emergency_contact, p.allergies, p.current_medications,
      p.medical_history⟩, ?_, rfl, rfl, rfl, rfl, rfl, rfl⟩
    simp [createPatient, h]

/-- Counterexample for C4 as stated: a payload whose gender, phone
number, email and address are all empty is accepted — createPatient
returns Ok and stores the patient — rather than yielding InvalidPayload. -/
theorem createPatient_validation_cex :
    patPayloadBlank.gender = "" ∧ patPayloadBlank.phone_number = "" ∧
    patPayloadBlank.email = "" ∧ patPayloadBlank.address = "" ∧
    (createPatient emptyState "i1" "own" patPayloadBlank).1 = Except.ok patBlank ∧
    (createPatient emptyState "i1" "own" patPayloadBlank).2.patients.get "i1" = some patBlank :=
  ⟨rfl, rfl, rfl, rfl, rfl, rfl⟩

/-- Witness for C4 at a concrete empty-name payload. -/
theorem createPatient_validation_wit :
    createPatient emptyState "i1" "own"
      { patPayloadBlank with name := "" } =
      (Except.error (Message.InvalidPayload "Missing required fields"), emptyState) :=
  createPatient_validation.1 emptyState "i1" "own" { patPayloadBlank with name := "" } rfl

/-- C5 (amended): initiatePayment rejects amount = 0 with InvalidPayload
"Missing required fields" (bigint 0 is falsy in the required-field
check), storing nothing; beyond that there is no range check — any
nonzero amount with resolving patient_id and appointment_id and
non-empty text fields is accepted and stored with status pending. -/
theorem initiatePayment_amount_check :
    (∀ (s : State) (nid : String) (p : CreatePaymentPayload), p.amount = 0 →
      initiatePayment s nid p =
        (Except.error (Message.InvalidPayload "Missing required fields"), s)) ∧
    (∀ (s : State) (nid : String) (p : CreatePaymentPayload) (pat : Patient) (apt : Appointment),
      p.patient_id ≠ "" → p.appointment_id ≠ "" → p.amount ≠ 0 → p.payment_method ≠ "" →
      s.patients.get p.patient_id = some pat →
      s.appointments.get p.appointment_id = some apt →
      ∃ pay : Payment,
        initiatePayment s nid p = (Except.ok pay, { s with payments := s.payments.insert nid pay }) ∧
        pay.amount = p.amount ∧ pay.status = "pending") := by
  constructor
  · intro s nid p h
    simp [initiatePayment, h]
  · intro s nid p pat apt h1 h2 h3 h4 hp ha
    refine ⟨⟨nid, p.appointment_id, p.patient_id, p.amount, "pending",
      p.payment_method⟩, ?_, rfl, rfl⟩
    simp [initiatePayment, h1, h2, h3, h4, hp, ha]

/-- Counterexample for C5 as stated: with an existing patient p1 and an
existing appointment a1 and every other field non-empty, amount = 0 is
rejected with InvalidPayload and nothing is stored — it does not
succeed as the claim asserts. -/
theorem initiatePayment_amount_cex :
    sPA.patients.get "p1" = some pat0 ∧
    sPA.appointments.get "a1" = some apt0 ∧
    initiatePayment sPA "y1"
      { patient_id := "p1", appointment_id := "a1", amount := 0, payment_method := "card" } =
      (Except.error (Message.InvalidPayload "Missing required fields"), sPA) :=
  ⟨rfl, rfl, rfl⟩

/-- Witness for C5: a nonzero amount at the same state is accepted with
status pending. -/
theorem initiatePayment_amount_wit :
    ∃ pay : Payment,
      initiatePayment sPA "y1"
        { patient_id := "p1", appointment_id := "a1", amount := 1, payment_method := "card" } =
        (Except.ok pay, { sPA with payments := sPA.payments.insert "y1" pay }) ∧
      pay.amount = 1 ∧ pay.status = "pending" :=
  initiatePayment_amount_check.2 sPA "y1"
    { patient_id := "p1", appointment_id := "a1", amount := 1, payment_method := "card" }
    pat0 apt0 (by decide) (by decide) (by decide) (by decide) rfl rfl

/-- C2 (amended): updatePatient, updateDoctor, updateDoctorAvailability
and updatePaymentStatus return NotFound and change no store when no
record exists under the given id; updateAppointmentWithVideoLink does so
provided the video link is non-empty (an empty link yields InvalidPayload
with no change, before the lookup); updateMedicalRecords never returns
NotFound — it unconditionally inserts and returns Ok. -/
theorem update_missing_behavior :
    (∀ (s : State) (pid : String) (p : CreatePatientPayload), s.patients.get pid = none →
      updatePatient s pid p =
        (Except.error (Message.NotFound ("Patient with id=" ++ pid ++ " not found")), s)) ∧
    (∀ (s : State) (did : String) (p : CreateDoctorPayload), s.doctors.get did = none →
      updateDoctor s did p =
        (Except.error (Message.NotFound ("Doctor with id=" ++ did ++ " not found")), s)) ∧
    (∀ (s : State) (did : String) (b : Bool), s.doctors.get did = none →
      updateDoctorAvailability s did b =
        (Except.error (Message.NotFound ("Doctor with id=" ++ did ++ " not found")), s)) ∧
    (∀ (s : State) (aid link : String), link ≠ "" → s.appointments.get aid = none →
      updateAppointmentWithVideoLink s aid link =
        (Except.error (Message.NotFound ("Appointment with id=" ++ aid ++ " not found")), s)) ∧
    (∀ (s : State) (aid : String),
      updateAppointmentWithVideoLink s aid "" =
        (Except.error (Message.InvalidPayload "Missing required fields"), s)) ∧
    (∀ (s : State) (pyid st : String), s.payments.get pyid = none →
      updatePaymentStatus s pyid st =
        (Except.error (Message.NotFound ("Payment with id=" ++ pyid ++ " not found")), s)) ∧
    (∀ (s : State) (pid : String) (r : MedicalRecord),
      updateMedicalRecords s pid r =
        (Except.ok r, { s with medicalRecords := s.medicalRecords.insert pid r })) := by
  refine ⟨?_, ?_, ?_, ?_, ?_, ?_, ?_⟩
  · intro s pid p h
    simp [updatePatient, h]
  · intro s did p h
    simp [updateDoctor, h]
  · intro s did b h
    simp [updateDoctorAvailability, h]
  · intro s aid link hl h
    simp [updateAppointmentWithVideoLink, hl, h]
  · intro s aid
    rfl
  · intro s pyid st h
    simp [updatePaymentStatus, h]
  · intro s pid r
    rfl

/-- Counterexample for C2 as stated: with no medical record stored under
p9, updateMedicalRecords does not return NotFound — it returns Ok and
mutates the store; and with an absent appointment a1 but an empty video
link, updateAppointmentWithVideoLink returns InvalidPayload, not
NotFound. -/
theorem update_missing_behavior_cex :
    emptyState.medicalRecords.get "p9" = none ∧
    (updateMedicalRecords emptyState "p9" med0).1 = Except.ok med0 ∧
    (updateMedicalRecords emptyState "p9" med0).2.medicalRecords.get "p9" = some med0 ∧
    emptyState.appointments.get "a1" = none ∧
    updateAppointmentWithVideoLink emptyState "a1" "" =
      (Except.error (Message.InvalidPayload "Missing required fields"), emptyState) :=
  ⟨rfl, rfl, rfl, rfl, rfl⟩

/-- Witness for C2 at concrete absent ids. -/
theorem update_missing_behavior_wit :
    updatePatient emptyState "p1" patPayload1 =
      (Except.error (Message.NotFound ("Patient with id=" ++ "p1" ++ " not found")), emptyState) ∧
    updateAppointmentWithVideoLink emptyState "a1" "v" =
      (Except.error (Message.NotFound ("Appointment with id=" ++ "a1" ++ " not found")), emptyState) :=
  ⟨update_missing_behavior.1 emptyState "p1" patPayload1 rfl,
   update_missing_behavior.2.2.2.1 emptyState "a1" "v" (by decide) rfl⟩

/-- C1: for createConsultation, createChat, createAppointment,
createPrescription and initiatePayment, whenever a referenced id
(patient_id, doctor_id, department_id or appointment_id as applicable)
does not resolve in its entity store the call returns InvalidPayload and
returns the state unchanged — no store is mutated — and, whenever the
required fields pass the truthiness check so that the referential check
is the one that fires, the error message names the missing id and its
entity kind. -/
theorem referential_create_validation :
    (∀ (s : State) (nid : String) (p : CreateConsultationPayload),
      s.patients.get p.patient_id = none ∨ s.departments.get p.department_id = none →
      (∃ m, createConsultation s nid p = (Except.error (Message.InvalidPayload m), s)) ∧
      (p.patient_id ≠ "" → p.problem ≠ "" → p.department_id ≠ "" →
        (s.patients.get p.patient_id = none ∧
          createConsultation s nid p = (Except.error (Message.InvalidPayload
            ("Patient with id=" ++ p.patient_id ++ " not found")), s)) ∨
        (s.departments.get p.department_id = none ∧
          createConsultation s nid p = (Except.error (Message.InvalidPayload
            ("Department with id=" ++ p.department_id ++ " not found")), s)))) ∧
    (∀ (s : State) (nid : String) (p : CreateChatPayload),
      s.patients.get p.patient_id = none ∨ s.doctors.get p.doctor_id = none →
      (∃ m, createChat s nid p = (Except.error (Message.InvalidPayload m), s)) ∧
      (p.patient_id ≠ "" → p.doctor_id ≠ "" → p.message ≠ "" → p.timestamp ≠ "" →
        (s.patients.get p.patient_id = none ∧
          createChat s nid p = (Except.error (Message.InvalidPayload
            ("Patient with id=" ++ p.patient_id ++ " not found")), s)) ∨
        (s.doctors.get p.doctor_id = none ∧
          createChat s nid p = (Except.error (Message.InvalidPayload
            ("Doctor with id=" ++ p.doctor_id ++ " not found")), s)))) ∧
    (∀ (s : State) (nid : String) (p : CreateAppointmentPayload),
      s.patients.get p.patient_id = none ∨ s.doctors.get p.doctor_id = none →
      (∃ m, createAppointment s nid p = (Except.error (Message.InvalidPayload m), s)) ∧
      (p.patient_id ≠ "" → p.doctor_id ≠ "" → p.reason ≠ "" → p.appointment_time ≠ "" →
        (s.patients.get p.patient_id = none ∧
          createAppointment s nid p = (Except.error (Message.InvalidPayload
            ("Patient with id=" ++ p.patient_id ++ " not found")), s)) ∨
        (s.doctors.get p.doctor_id = none ∧
          createAppointment s nid p = (Except.error (Message.InvalidPayload
            ("Doctor with id=" ++ p.doctor_id ++ " not found")), s)))) ∧
    (∀ (s : State) (nid now : String) (p : CreatePrescriptionPayload),
      s.patients.get p.patient_id = none ∨ s.doctors.get p.doctor_id = none →
      (∃ m, createPrescription s nid now p = (Except.error (Message.InvalidPayload m), s)) ∧
      (p.patient_id ≠ "" → p.doctor_id ≠ "" → p.instructions ≠ "" →
        (s.patients.get p.patient_id = none ∧
          createPrescription s nid now p = (Except.error (Message.InvalidPayload
            ("Patient with id=" ++ p.patient_id ++ " not found")), s)) ∨
        (s.doctors.get p.doctor_id = none ∧
          createPrescription s nid now p = (Except.error (Message.InvalidPayload
            ("Doctor with id=" ++ p.doctor_id ++ " not found")), s)))) ∧
    (∀ (s : State) (nid : String) (p : CreatePaymentPayload),
      s.patients.get p.patient_id = none ∨ s.appointments.get p.appointment_id = none →
      (∃ m, initiatePayment s nid p = (Except.error (Message.InvalidPayload m), s)) ∧
      (p.patient_id ≠ "" → p.appointment_id ≠ "" → p.amount ≠ 0 → p.payment_method ≠ "" →
        (s.patients.get p.patient_id = none ∧
          initiatePayment s nid p = (Except.error (Message.InvalidPayload
            ("Patient with id=" ++ p.patient_id ++ " not found")), s)) ∨
        (s.appointments.get p.appointment_id = none ∧
          initiatePayment s nid p = (Except.error (Message.InvalidPayload
            ("Appointment with id=" ++ p.appointment_id ++ " not found")), s)))) := by
  refine ⟨?_, ?_, ?_, ?_, ?_⟩
  · intro s nid p href
    by_cases hf : p.patient_id = "" ∨ p.problem = "" ∨ p.department_id = ""
    · refine ⟨⟨"Missing required fields", by simp [createConsultation, hf]⟩, ?_⟩
      intro h1 h2 h3
      rcases hf with h | h | h
      · exact absurd h h1
      · exact absurd h h2
      · exact absurd h h3
    · cases hp : s.patients.get p.patient_id with
      | none =>
          refine ⟨⟨"Patient with id=" ++ p.patient_id ++ " not found", ?_⟩,
            fun _ _ _ => Or.inl ⟨rfl, ?_⟩⟩ <;>
            simp [createConsultation, hf, hp]
      | some x =>
          have hd : s.departments.get p.department_id = none := by
            rcases href with h | h
            · rw [hp] at h
              exact Option.noConfusion h
            · exact h
          refine ⟨⟨"Department with id=" ++ p.department_id ++ " not found", ?_⟩,
            fun _ _ _ => Or.inr ⟨hd, ?_⟩⟩ <;>
            simp [createConsultation, hf, hp, hd]
  · intro s nid p href
    by_cases hf : p.patient_id = "" ∨ p.doctor_id = "" ∨ p.message = "" ∨ p.timestamp = ""
    · refine ⟨⟨"Missing required fields", by simp [createChat, hf]⟩, ?_⟩
      intro h1 h2 h3 h4
      rcases hf with h | h | h | h
      · exact absurd h h1
      · exact absurd h h2
      · exact absurd h h3
      · exact absurd h h4
    · cases hp : s.patients.get p.patient_id with
      | none =>
          refine ⟨⟨"Patient with id=" ++ p.patient_id ++ " not found", ?_⟩,
            fun _ _ _ _ => Or.inl ⟨rfl, ?_⟩⟩ <;>
            simp [createChat, hf, hp]
      | some x =>
          have hd : s.doctors.get p.doctor_id = none := by
            rcases href with h | h
            · rw [hp] at h
              exact Option.noConfusion h
            · exact h
          refine ⟨⟨"Doctor with id=" ++ p.doctor_id ++ " not found", ?_⟩,
            fun _ _ _ _ => Or.inr ⟨hd, ?_⟩⟩ <;>
            simp [createChat, hf, hp, hd]
  · intro s nid p href
    by_cases hf : p.patient_id = "" ∨ p.doctor_id = "" ∨ p.reason = "" ∨ p.appointment_time = ""
    · refine ⟨⟨"Missing required fields", by simp [createAppointment, hf]⟩, ?_⟩
      intro h1 h2 h3 h4
      rcases hf with h | h | h | h
      · exact absurd h h1
      · exact absurd h h2
      · exact absurd h h3
      · exact absurd h h4
    · cases hp : s.patients.get p.patient_id with
      | none =>
          refine ⟨⟨"Patient with id=" ++ p.patient_id ++ " not found", ?_⟩,
            fun _ _ _ _ => Or.inl ⟨rfl, ?_⟩⟩ <;>
            simp [createAppointment, hf, hp]
      | some x =>
          have hd : s.doctors.get p.doctor_id = none := by
            rcases href with h | h
            · rw [hp] at h
              exact Option.noConfusion h
            · exact h
          refine ⟨⟨"Doctor with id=" ++ p.doctor_id ++ " not found", ?_⟩,
            fun _ _ _ _ => Or.inr ⟨hd, ?_⟩⟩ <;>
            simp [createAppointment, hf, hp, hd]
  · intro s nid now p href
    by_cases hf : p.patient_id = "" ∨ p.doctor_id = "" ∨ p.instructions = ""
    · refine ⟨⟨"Missing required fields", by simp [createPrescription, hf]⟩, ?_⟩
      intro h1 h2 h3
      rcases hf with h | h | h
      · exact absurd h h1
      · exact absurd h h2
      · exact absurd h h3
    · cases hp : s.patients.get p.patient_id with
      | none =>
          refine ⟨⟨"Patient with id=" ++ p.patient_id ++ " not found", ?_⟩,
            fun _ _ _ => Or.inl ⟨rfl, ?_⟩⟩ <;>
            simp [createPrescription, hf, hp]
      | some x =>
          have hd : s.doctors.get p.doctor_id = none := by
            rcases href with h | h
            · rw [hp] at h
              exact Option.noConfusion h
            · exact h
          refine ⟨⟨"Doctor with id=" ++ p.doctor_id ++ " not found", ?_⟩,
            fun _ _ _ => Or.inr ⟨hd, ?_⟩⟩ <;>
            simp [createPrescription, hf, hp, hd]
  · intro s nid p href
    by_cases hf : p.patient_id = "" ∨ p.appointment_id = "" ∨ p.amount = 0 ∨ p.payment_method = ""
    · refine ⟨⟨"Missing required fields", by simp [initiatePayment, hf]⟩, ?_⟩
      intro h1 h2 h3 h4
      rcases hf with h | h | h | h
      · exact absurd h h1
      · exact absurd h h2
      · exact absurd h h3
      · exact absurd h h4
    · cases hp : s.patients.get p.patient_id with
      | none =>
          refine ⟨⟨"Patient with id=" ++ p.patient_id ++ " not found", ?_⟩,
            fun _ _ _ _ => Or.inl ⟨rfl, ?_⟩⟩ <;>
            simp [initiatePayment, hf, hp]
      | some x =>
          have hd : s.appointments.get p.appointment_id = none := by
            rcases href with h | h
            · rw [hp] at h
              exact Option.noConfusion h
            · exact h
          refine ⟨⟨"Appointment with id=" ++ p.appointment_id ++ " not found", ?_⟩,
            fun _ _ _ _ => Or.inr ⟨hd, ?_⟩⟩ <;>
            simp [initiatePayment, hf, hp, hd]

/-- Witness for C1: a consultation referencing an absent patient on the
empty state yields InvalidPayload with the state unchanged. -/
theorem referential_create_validation_wit :
    ∃ m, createConsultation emptyState "c1" ⟨"p1", "flu", "dep1"⟩ =
      (Except.error (Message.InvalidPayload m), emptyState) :=
  (referential_create_validation.1 emptyState "c1" ⟨"p1", "flu", "dep1"⟩ (Or.inl rfl)).1

/-- C3 (amended): a createDepartment call whose payload name equals the
name of any stored department (case-sensitively) returns InvalidPayload
and stores nothing; and two consecutive calls whose names are non-empty,
differ from each other and differ from every stored name (under distinct
generated ids) both succeed, with both departments stored afterwards. -/
theorem department_name_unique :
    (∀ (s : State) (nid : String) (p : CreateDepartmentPayload),
      (∃ d ∈ s.departments.values, d.name = p.name) →
      ∃ m, createDepartment s nid p = (Except.error (Message.InvalidPayload m), s)) ∧
    (∀ (s : State) (nid1 nid2 : String) (p1 p2 : CreateDepartmentPayload),
      p1.name ≠ "" → p2.name ≠ "" → p1.name ≠ p2.name → nid1 ≠ nid2 →
      (∀ d ∈ s.departments.values, d.name ≠ p1.name ∧ d.name ≠ p2.name) →
      ∃ (d1 d2 : Department) (s1 s2 : State),
        createDepartment s nid1 p1 = (Except.ok d1, s1) ∧
        createDepartment s1 nid2 p2 = (Except.ok d2, s2) ∧
        d1.name = p1.name ∧ d2.name = p2.name ∧
        s2.departments.get nid1 = some d1 ∧ s2.departments.get nid2 = some d2) := by
  constructor
  · intro s nid p h
    obtain ⟨d, hdmem, hdname⟩ := h
    by_cases hn : p.name = ""
    · exact ⟨"Missing required fields", by simp [createDepartment, hn]⟩
    · have hdup : s.departments.values.any (fun x => x.name == p.name) = true := by
        rw [List.any_eq_true]
        exact ⟨d, hdmem, by simp [hdname]⟩
      exact ⟨"Department name must be unique", by simp [createDepartment, hn, hdup]⟩
  · intro s nid1 nid2 p1 p2 h1 h2 hnames hids hall
    have hdup1 : ¬ s.departments.values.any (fun x => x.name == p1.name) = true := by
      rw [List.any_eq_true]
      rintro ⟨x, hx, hbeq⟩
      exact (hall x hx).1 (by simpa using hbeq)
    have hall2 : ∀ d ∈ (s.departments.insert nid1
        ⟨nid1, p1.name, p1.description⟩).values, d.name ≠ p2.name := by
      intro d hd
      rcases mem_values_insert s.departments.entries nid1 ⟨nid1, p1.name, p1.description⟩ d
          (by simpa [Store.values, Store.insert] using hd) with hmem | heq
      · exact (hall d (by simpa [Store.values] using hmem)).2
      · rw [heq]
        exact hnames
    have hdup2 : ¬ (s.departments.insert nid1
        ⟨nid1, p1.name, p1.description⟩).values.any (fun x => x.name == p2.name) = true := by
      rw [List.any_eq_true]
      rintro ⟨x, hx, hbeq⟩
      exact hall2 x hx (by simpa using hbeq)
    refine ⟨⟨nid1, p1.name, p1.description⟩, ⟨nid2, p2.name, p2.description⟩,
      { s with departments := s.departments.insert nid1 ⟨nid1, p1.name, p1.description⟩ },
      { s with departments := (s.departments.insert nid1
          ⟨nid1, p1.name, p1.description⟩).insert nid2 ⟨nid2, p2.name, p2.description⟩ },
      ?_, ?_, rfl, rfl, ?_, ?_⟩
    · simp [createDepartment, h1, hdup1]
    · simp [createDepartment, h2, hdup2]
    · show ((s.departments.insert nid1 ⟨nid1, p1.name, p1.description⟩).insert nid2
        ⟨nid2, p2.name, p2.description⟩).get nid1 = some ⟨nid1, p1.name, p1.description⟩
      rw [Store.get_insert_ne _ _ _ _ hids, Store.get_insert_self]
    · exact Store.get_insert_self _ _ _

/-- Counterexample for C3 as stated: on the empty store, a first call
whose name is the empty string — which differs from every stored name
and from the second call's name — does not succeed: it is rejected as
InvalidPayload by the required-field check. -/
theorem department_name_unique_cex :
    emptyState.departments.values = [] ∧
    ("" : String) ≠ "Cardio" ∧
    createDepartment emptyState "i1" { name := "", description := "d" } =
      (Except.error (Message.InvalidPayload "Missing required fields"), emptyState) :=
  ⟨rfl, by decide, rfl⟩

/-- Witness for C3: a duplicate name is rejected, and two fresh distinct
names both succeed, at concrete inputs. -/
theorem department_name_unique_wit :
    (∃ m, createDepartment
        { emptyState with departments := ⟨[("i0", ⟨"i0", "Cardio", "d"⟩)]⟩ } "i1"
        { name := "Cardio", description := "e" } =
        (Except.error (Message.InvalidPayload m),
          { emptyState with departments := ⟨[("i0", ⟨"i0", "Cardio", "d"⟩)]⟩ })) ∧
    (∃ (d1 d2 : Department) (s1 s2 : State),
      createDepartment emptyState "i1" { name := "Cardio", description := "d" } =
        (Except.ok d1, s1) ∧
      createDepartment s1 "i2" { name := "Derma", description := "e" } =
        (Except.ok d2, s2) ∧
      d1.name = "Cardio" ∧ d2.name = "Derma" ∧
      s2.departments.get "i1" = some d1 ∧ s2.departments.get "i2" = some d2) :=
  ⟨department_name_unique.1 { emptyState with departments := ⟨[("i0", ⟨"i0", "Cardio", "d"⟩)]⟩ }
      "i1" { name := "Cardio", description := "e" } ⟨⟨"i0", "Cardio", "d"⟩, by decide, rfl⟩,
   department_name_unique.2 emptyState "i1" "i2"
      { name := "Cardio", description := "d" } { name := "Derma", description := "e" }
      (by decide) (by decide) (by decide) (by decide) (by intro d hd; simp [emptyState, Store.values] at hd)⟩

theorem ifLenSplit {α : Type} (v : List α) (e : Message) :
    (v = [] → (if v.length = 0 then Except.error e else Except.ok v) = Except.error e) ∧
    (v ≠ [] →
      (if v.length = 0 then (Except.error e : Except Message (List α)) else Except.ok v) =
        Except.ok v) ∧
    (∀ l, (if v.length = 0 then (Except.error e : Except Message (List α)) else Except.ok v) =
        Except.ok l → l ≠ []) := by
  refine ⟨fun h => by simp [h], fun h => by simp [List.length_eq_zero, h], fun l hl => ?_⟩
  by_cases h : v = []
  · simp [h] at hl
  · rw [if_neg (by simp [List.length_eq_zero, h])] at hl
    cases hl
    exact h

/-- C6: every list-all and filter query — getAllDepartments,
getAllDoctors, getAllPatients, getAllConsultations, getAllChats,
getDoctorByDepartment, searchDoctorByName, searchDepartmentByName,
getConsultationHistoryByPatient — returns NotFound when the (filtered)
sequence of stored values is empty, returns Ok of the full matching
sequence otherwise, and never returns Ok of an empty list. -/
theorem query_empty_contract :
    (∀ s : State,
      (s.departments.values = [] →
        getAllDepartments s = Except.error (Message.NotFound "No departments found")) ∧
      (s.departments.values ≠ [] → getAllDepartments s = Except.ok s.departments.values) ∧
      (∀ l, getAllDepartments s = Except.ok l → l ≠ [])) ∧
    (∀ s : State,
      (s.doctors.values = [] →
        getAllDoctors s = Except.error (Message.NotFound "No doctors found")) ∧
      (s.doctors.values ≠ [] → getAllDoctors s = Except.ok s.doctors.values) ∧
      (∀ l, getAllDoctors s = Except.ok l → l ≠ [])) ∧
    (∀ s : State,
      (s.patients.values = [] →
        getAllPatients s = Except.error (Message.NotFound "No patients found")) ∧
      (s.patients.values ≠ [] → getAllPatients s = Except.ok s.patients.values) ∧
      (∀ l, getAllPatients s = Except.ok l → l ≠ [])) ∧
    (∀ s : State,
      (s.consultations.values = [] →
        getAllConsultations s = Except.error (Message.NotFound "No consultations found")) ∧
      (s.consultations.values ≠ [] →
        getAllConsultations s = Except.ok s.consultations.values) ∧
      (∀ l, getAllConsultations s = Except.ok l → l ≠ [])) ∧
    (∀ s : State,
      (s.chats.values = [] → getAllChats s = Except.error (Message.NotFound "No chats found")) ∧
      (s.chats.values ≠ [] → getAllChats s = Except.ok s.chats.values) ∧
      (∀ l, getAllChats s = Except.ok l → l ≠ [])) ∧
    (∀ (s : State) (did : String),
      (s.doctors.values.filter (fun d => d.department_id == did) = [] →
        getDoctorByDepartment s did = Except.error (Message.NotFound
          ("No doctors found for department id=" ++ did))) ∧
      (s.doctors.values.filter (fun d => d.department_id == did) ≠ [] →
        getDoctorByDepartment s did =
          Except.ok (s.doctors.values.filter (fun d => d.department_id == did))) ∧
      (∀ l, getDoctorByDepartment s did = Except.ok l → l ≠ [])) ∧
    (∀ (s : State) (name : String),
      (s.doctors.values.filter (fun d => jsIncludes d.name.toLower name.toLower) = [] →
        searchDoctorByName s name = Except.error (Message.NotFound
          ("No doctors found with name containing \x27" ++ name ++ "\x27"))) ∧
      (s.doctors.values.filter (fun d => jsIncludes d.name.toLower name.toLower) ≠ [] →
        searchDoctorByName s name =
          Except.ok (s.doctors.values.filter (fun d => jsIncludes d.name.toLower name.toLower))) ∧
      (∀ l, searchDoctorByName s name = Except.ok l → l ≠ [])) ∧
    (∀ (s : State) (name : String),
      (s.departments.values.filter (fun d => jsIncludes d.name.toLower name.toLower) = [] →
        searchDepartmentByName s name = Except.error (Message.NotFound
          ("No departments found with name containing \x27" ++ name ++ "\x27"))) ∧
      (s.departments.values.filter (fun d => jsIncludes d.name.toLower name.toLower) ≠ [] →
        searchDepartmentByName s name = Except.ok
          (s.departments.values.filter (fun d => jsIncludes d.name.toLower name.toLower))) ∧
      (∀ l, searchDepartmentByName s name = Except.ok l → l ≠ [])) ∧
    (∀ (s : State) (pid : String),
      (s.consultations.values.filter (fun c => c.patient_id == pid) = [] →
        getConsultationHistoryByPatient s pid = Except.error (Message.NotFound
          ("No consultations found for patient id=" ++ pid))) ∧
      (s.consultations.values.filter (fun c => c.patient_id == pid) ≠ [] →
        getConsultationHistoryByPatient s pid =
          Except.ok (s.consultations.values.filter (fun c => c.patient_id == pid))) ∧
      (∀ l, getConsultationHistoryByPatient s pid = Except.ok l → l ≠ [])) :=
  ⟨fun s => ifLenSplit s.departments.values (Message.NotFound "No departments found"),
   fun s => ifLenSplit s.doctors.values (Message.NotFound "No doctors found"),
   fun s => ifLenSplit s.patients.values (Message.NotFound "No patients found"),
   fun s => ifLenSplit s.consultations.values (Message.NotFound "No consultations found"),
   fun s => ifLenSplit s.chats.values (Message.NotFound "No chats found"),
   fun s did => ifLenSplit (s.doctors.values.filter (fun d => d.department_id == did))
     (Message.NotFound ("No doctors found for department id=" ++ did)),
   fun s name => ifLenSplit
     (s.doctors.values.filter (fun d => jsIncludes d.name.toLower name.toLower))
     (Message.NotFound ("No doctors found with name containing \x27" ++ name ++ "\x27")),
   fun s name => ifLenSplit
     (s.departments.values.filter (fun d => jsIncludes d.name.toLower name.toLower))
     (Message.NotFound ("No departments found with name containing \x27" ++ name ++ "\x27")),
   fun s pid => ifLenSplit (s.consultations.values.filter (fun c => c.patient_id == pid))
     (Message.NotFound ("No consultations found for patient id=" ++ pid))⟩

/-- Witness for C6 at the empty state and at a one-doctor state with a
non-matching and a matching department filter. -/
theorem query_empty_contract_wit :
    getAllDepartments emptyState = Except.error (Message.NotFound "No departments found") ∧
    getDoctorByDepartment sD "nope" =
      Except.error (Message.NotFound ("No doctors found for department id=" ++ "nope")) ∧
    getAllDoctors sD = Except.ok sD.doctors.values :=
  ⟨(query_empty_contract.1 emptyState).1 rfl,
   ((query_empty_contract.2.2.2.2.2.1 sD "nope").1 (by decide)),
   ((query_empty_contract.2.1 sD).2.1 (by decide))⟩

/-- C7: for every entity exposing a get-by-id operation (Department,
Doctor, Patient, Consultation, Chat), a successful create followed
immediately by get-by-id on the created record's id returns Ok of a
record equal to the one the create returned. -/
theorem create_get_roundtrip :
    (∀ (s : State) (nid : String) (p : CreateDepartmentPayload) (d : Department) (s1 : State),
      createDepartment s nid p = (Except.ok d, s1) → getDepartmentById s1 d.id = Except.ok d) ∧
    (∀ (s : State) (nid caller : String) (p : CreateDoctorPayload) (d : Doctor) (s1 : State),
      createDoctor s nid caller p = (Except.ok d, s1) → getDoctorById s1 d.id = Except.ok d) ∧
    (∀ (s : State) (nid caller : String) (p : CreatePatientPayload) (d : Patient) (s1 : State),
      createPatient s nid caller p = (Except.ok d, s1) → getPatientById s1 d.id = Except.ok d) ∧
    (∀ (s : State) (nid : String) (p : CreateConsultationPayload) (d : Consultation) (s1 : State),
      createConsultation s nid p = (Except.ok d, s1) → getConsultationById s1 d.id = Except.ok d) ∧
    (∀ (s : State) (nid : String) (p : CreateChatPayload) (d : Chat) (s1 : State),
      createChat s nid p = (Except.ok d, s1) → getChatById s1 d.id = Except.ok d) := by
  refine ⟨?_, ?_, ?_, ?_, ?_⟩
  · intro s nid p d s1 h
    by_cases hn : p.name = ""
    · simp [createDepartment, hn] at h
    · by_cases hdup : s.departments.values.any (fun x => x.name == p.name) = true
      · simp [createDepartment, hn, hdup] at h
      · simp [createDepartment, hn, hdup] at h
        obtain ⟨hd2, hs⟩ := h
        subst hs
        subst hd2
        simp [getDepartmentById, Store.get_insert_self]
  · intro s nid caller p d s1 h
    by_cases hn : p.name = "" ∨ p.department_id = "" ∨ p.image = ""
    · simp [createDoctor, hn] at h
    · cases hdep : s.departments.get p.department_id with
      | none => simp [createDoctor, hn, hdep] at h
      | some x =>
          simp [createDoctor, hn, hdep] at h
          obtain ⟨hd2, hs⟩ := h
          subst hs
          subst hd2
          simp [getDoctorById, Store.get_insert_self]
  · intro s nid caller p d s1 h
    by_cases hn : p.name = ""
    · simp [createPatient, hn] at h
    · simp [createPatient, hn] at h
      obtain ⟨hd2, hs⟩ := h
      subst hs
      subst hd2
      simp [getPatientById, Store.get_insert_self]
  · intro s nid p d s1 h
    by_cases hn : p.patient_id = "" ∨ p.problem = "" ∨ p.department_id = ""
    · simp [createConsultation, hn] at h
    · cases hp : s.patients.get p.patient_id with
      | none => simp [createConsultation, hn, hp] at h
      | some x =>
          cases hdep : s.departments.get p.department_id with
          | none => simp [createConsultation, hn, hp, hdep] at h
          | some y =>
              simp [createConsultation, hn, hp, hdep] at h
              obtain ⟨hd2, hs⟩ := h
              subst hs
              subst hd2
              simp [getConsultationById, Store.get_insert_self]
  · intro s nid p d s1 h
    by_cases hn : p.patient_id = "" ∨ p.doctor_id = "" ∨ p.message = "" ∨ p.timestamp = ""
    · simp [createChat, hn] at h
    · cases hp : s.patients.get p.patient_id with
      | none => simp [createChat, hn, hp] at h
      | some x =>
          cases hdoc : s.doctors.get p.doctor_id with
          | none => simp [createChat, hn, hp, hdoc] at h
          | some y =>
              simp [createChat, hn, hp, hdoc] at h
              obtain ⟨hd2, hs⟩ := h
              subst hs
              subst hd2
              simp [getChatById, Store.get_insert_self]

/-- Witness for C7: create a department on the empty state and read it
back by its id. -/
theorem create_get_roundtrip_wit :
    getDepartmentById
      { emptyState with departments := ⟨[("i9", ⟨"i9", "Cardio", "d"⟩)]⟩ }
      (Department.id ⟨"i9", "Cardio", "d"⟩) = Except.ok ⟨"i9", "Cardio", "d"⟩ :=
  create_get_roundtrip.1 emptyState "i9" { name := "Cardio", description := "d" }
    ⟨"i9", "Cardio", "d"⟩
    { emptyState with departments := ⟨[("i9", ⟨"i9", "Cardio", "d"⟩)]⟩ } rfl

theorem int_log_eq (q : ℚ) (e : ℤ) (h1 : (2 : ℚ) ^ e ≤ q) (h2 : q < (2 : ℚ) ^ (e + 1)) :
    Int.log 2 q = e := by
  have hq : 0 < q := lt_of_lt_of_le (zpow_pos (by norm_num) e) h1
  have hle : (2 : ℚ) ^ Int.log 2 q ≤ q := Int.zpow_log_le_self (by norm_num) hq
  have hlt : q < (2 : ℚ) ^ (Int.log 2 q + 1) := Int.lt_zpow_succ_log_self (by norm_num) q
  by_contra hne
  rcases lt_or_gt_of_ne hne with hl | hl
  · have : (2 : ℚ) ^ (Int.log 2 q + 1) ≤ (2 : ℚ) ^ e :=
      zpow_le_zpow_right₀ (by norm_num) (by omega)
    linarith
  · have : (2 : ℚ) ^ (e + 1) ≤ (2 : ℚ) ^ (Int.log 2 q) :=
      zpow_le_zpow_right₀ (by norm_num) (by omega)
    linarith

theorem roundNearestEven_lt (q : ℚ) (f : ℤ) (hf : ⌊q⌋ = f) (hr : q - f < 1 / 2) :
    roundNearestEven q = f := by
  simp only [roundNearestEven, hf]
  rw [if_pos hr]

theorem roundNearestEven_gt (q : ℚ) (f : ℤ) (hf : ⌊q⌋ = f) (hr : 1 / 2 < q - f) :
    roundNearestEven q = f + 1 := by
  have hr2 : ¬ (q - (f : ℚ) < 1 / 2) := by linarith
  simp only [roundNearestEven, hf]
  rw [if_neg hr2, if_pos hr]

theorem roundDouble_eval_lt (q : ℚ) (e f : ℤ) (h1 : (2 : ℚ) ^ e ≤ q)
    (h2 : q < (2 : ℚ) ^ (e + 1)) (hf : ⌊q / (2 : ℚ) ^ (e - 52)⌋ = f)
    (hr : q / (2 : ℚ) ^ (e - 52) - f < 1 / 2) :
    roundDouble q = (f : ℚ) * (2 : ℚ) ^ (e - 52) := by
  have hq : 0 < q := lt_of_lt_of_le (zpow_pos (by norm_num) e) h1
  have he : Int.log 2 q = e := int_log_eq q e h1 h2
  rw [roundDouble, if_neg hq.ne', if_pos hq, he, roundNearestEven_lt _ f hf hr]

theorem roundDouble_eval_gt (q : ℚ) (e f : ℤ) (h1 : (2 : ℚ) ^ e ≤ q)
    (h2 : q < (2 : ℚ) ^ (e + 1)) (hf : ⌊q / (2 : ℚ) ^ (e - 52)⌋ = f)
    (hr : 1 / 2 < q / (2 : ℚ) ^ (e - 52) - f) :
    roundDouble q = ((f + 1 : ℤ) : ℚ) * (2 : ℚ) ^ (e - 52) := by
  have hq : 0 < q := lt_of_lt_of_le (zpow_pos (by norm_num) e) h1
  have he : Int.log 2 q = e := int_log_eq q e h1 h2
  rw [roundDouble, if_neg hq.ne', if_pos hq, he, roundNearestEven_gt _ f hf hr]

theorem toFixed2_eval {q : ℚ} {n : ℤ} (h : ⌊q * 100 + 1 / 2⌋ = n) :
    toFixed2 q = toString (n / 100) ++ "." ++
      (if n % 100 < 10 then "0" ++ toString (n % 100) else toString (n % 100)) := by
  simp only [toFixed2, h]

theorem calculateBMI_pos (w h : Nat) (hh : h ≠ 0) :
    calculateBMI w h = Except.ok ("BMI is " ++ toFixed2 (bmiDouble w h) ++
      " - " ++ bmiCategory (bmiDouble w h)) := by
  simp only [calculateBMI, if_neg hh]

theorem roundDouble_t185 : roundDouble (185 / 10) = 37 / 2 := by
  rw [roundDouble_eval_lt (185 / 10) 4 5207287069147136 (by norm_num) (by norm_num)
    (by norm_num) (by norm_num)]
  norm_num

theorem roundDouble_t249 : roundDouble (249 / 10) = 3504363460047667 / 140737488355328 := by
  rw [roundDouble_eval_lt (249 / 10) 4 7008726920095334 (by norm_num) (by norm_num)
    (by norm_num) (by norm_num)]
  norm_num

theorem roundDouble_t299 : roundDouble (299 / 10) = 4208050901824307 / 140737488355328 := by
  rw [roundDouble_eval_lt (299 / 10) 4 8416101803648614 (by norm_num) (by norm_num)
    (by norm_num) (by norm_num)]
  norm_num

theorem bmiDouble_70_175 : bmiDouble 70 175 = 6433713753386423 / 281474976710656 := by
  have c1 : roundDouble ((175 : ℕ) : ℚ) = 175 := by
    rw [roundDouble_eval_lt ((175 : ℕ) : ℚ) 7 6157265115545600 (by norm_num) (by norm_num)
      (by norm_num) (by norm_num)]
    norm_num
  have c2 : roundDouble ((175 : ℚ) / 100) = 7 / 4 := by
    rw [roundDouble_eval_lt ((175 : ℚ) / 100) 0 7881299347898368 (by norm_num) (by norm_num)
      (by norm_num) (by norm_num)]
    norm_num
  have c3 : roundDouble ((7 / 4 : ℚ) * (7 / 4)) = 49 / 16 := by
    rw [roundDouble_eval_lt ((7 / 4 : ℚ) * (7 / 4)) 1 6896136929411072 (by norm_num)
      (by norm_num) (by norm_num) (by norm_num)]
    norm_num
  have c4 : roundDouble ((70 : ℕ) : ℚ) = 70 := by
    rw [roundDouble_eval_lt ((70 : ℕ) : ℚ) 6 4925812092436480 (by norm_num) (by norm_num)
      (by norm_num) (by norm_num)]
    norm_num
  have c5 : roundDouble ((70 : ℚ) / (49 / 16)) = 6433713753386423 / 281474976710656 := by
    rw [roundDouble_eval_gt ((70 : ℚ) / (49 / 16)) 4 6433713753386422 (by norm_num)
      (by norm_num) (by norm_num) (by norm_num)]
    norm_num
  simp only [bmiDouble]
  rw [c1, c2, c3, c4, c5]

theorem bmiDouble_120_160 : bmiDouble 120 160 = 6597069766655999 / 140737488355328 := by
  have c1 : roundDouble ((160 : ℕ) : ℚ) = 160 := by
    rw [roundDouble_eval_lt ((160 : ℕ) : ℚ) 7 5629499534213120 (by norm_num) (by norm_num)
      (by norm_num) (by norm_num)]
    norm_num
  have c2 : roundDouble ((160 : ℚ) / 100) = 3602879701896397 / 2251799813685248 := by
    rw [roundDouble_eval_gt ((160 : ℚ) / 100) 0 7205759403792793 (by norm_num) (by norm_num)
      (by norm_num) (by norm_num)]
    norm_num
  have c3 : roundDouble ((3602879701896397 / 2251799813685248 : ℚ) *
      (3602879701896397 / 2251799813685248)) = 1441151880758559 / 562949953421312 := by
    rw [roundDouble_eval_gt ((3602879701896397 / 2251799813685248 : ℚ) *
      (3602879701896397 / 2251799813685248)) 1 5764607523034235 (by norm_num) (by norm_num)
      (by norm_num) (by norm_num)]
    norm_num
  have c4 : roundDouble ((120 : ℕ) : ℚ) = 120 := by
    rw [roundDouble_eval_lt ((120 : ℕ) : ℚ) 6 8444249301319680 (by norm_num) (by norm_num)
      (by norm_num) (by norm_num)]
    norm_num
  have c5 : roundDouble ((120 : ℚ) / (1441151880758559 / 562949953421312)) =
      6597069766655999 / 140737488355328 := by
    rw [roundDouble_eval_gt ((120 : ℚ) / (1441151880758559 / 562949953421312)) 5
      6597069766655998 (by norm_num) (by norm_num) (by norm_num) (by norm_num)]
    norm_num
  simp only [bmiDouble]
  rw [c1, c2, c3, c4, c5]

theorem calculateBMI_70_175 : calculateBMI 70 175 = Except.ok "BMI is 22.86 - Normal Weight" := by
  rw [calculateBMI_pos 70 175 (by norm_num), bmiDouble_70_175]
  have e2 : toFixed2 ((6433713753386423 : ℚ) / 281474976710656) = "22.86" := by
    rw [@toFixed2_eval ((6433713753386423 : ℚ) / 281474976710656) 2286 (by norm_num)]
    decide
  have e3 : bmiCategory ((6433713753386423 : ℚ) / 281474976710656) = "Normal Weight" := by
    rw [bmiCategory, roundDouble_t185, roundDouble_t249, roundDouble_t299]
    norm_num
  rw [e2, e3]
  rfl

theorem calculateBMI_120_160 : calculateBMI 120 160 = Except.ok "BMI is 46.87 - Obese" := by
  rw [calculateBMI_pos 120 160 (by norm_num), bmiDouble_120_160]
  have e2 : toFixed2 ((6597069766655999 : ℚ) / 140737488355328) = "46.87" := by
    rw [@toFixed2_eval ((6597069766655999 : ℚ) / 140737488355328) 4687 (by norm_num)]
    decide
  have e3 : bmiCategory ((6597069766655999 : ℚ) / 140737488355328) = "Obese" := by
    rw [bmiCategory, roundDouble_t185, roundDouble_t249, roundDouble_t299]
    norm_num
  rw [e2, e3]
  rfl

/-- C8 (amended): calculateBMI errors with "Height cannot be zero."
exactly on height 0; on any nonzero height it returns
"BMI is X.XX - Category" where X.XX formats the binary64 double
evaluation of weight / (height in metres)^2 to two decimals — which can
differ in the final digit from rounding the exact ratio — and the
category follows the double-literal thresholds of bmiCategory;
concretely 70 kg at 175 cm yields "BMI is 22.86 - Normal Weight" and
120 kg at 160 cm yields "BMI is 46.87 - Obese", exactly as the
JavaScript double computation prints them. -/
theorem calculateBMI_spec :
    (∀ w h : Nat,
      (h = 0 → calculateBMI w h = Except.error (Message.Error "Height cannot be zero.")) ∧
      (h ≠ 0 → calculateBMI w h = Except.ok ("BMI is " ++ toFixed2 (bmiDouble w h) ++
        " - " ++ bmiCategory (bmiDouble w h)))) ∧
    calculateBMI 70 175 = Except.ok "BMI is 22.86 - Normal Weight" ∧
    calculateBMI 120 160 = Except.ok "BMI is 46.87 - Obese" ∧
    calculateBMI 70 0 = Except.error (Message.Error "Height cannot be zero.") :=
  ⟨fun w h => ⟨fun hh => by simp [calculateBMI, hh], fun hh => calculateBMI_pos w h hh⟩,
   calculateBMI_70_175, calculateBMI_120_160, rfl⟩

/-- Counterexample for C8 as stated: at the very input the claim
names, weight=120 and height=160, the program outputs "BMI is 46.87 - Obese",
while the exact ratio 120 / 1.6^2 = 375/8 = 46.875 formatted to two
decimal places by the toFixed rounding rule is "46.88" — the printed
X.XX is not weight / (height in metres)^2 to two decimal places. -/
theorem calculateBMI_spec_cex :
    calculateBMI 120 160 = Except.ok "BMI is 46.87 - Obese" ∧
    (120 : ℚ) * 10000 / ((160 : ℚ) * 160) = 375 / 8 ∧
    toFixed2 ((375 : ℚ) / 8) = "46.88" ∧
    ("BMI is 46.87 - Obese" : String) ≠ "BMI is " ++ toFixed2 ((375 : ℚ) / 8) ++ " - Obese" := by
  have hf : toFixed2 ((375 : ℚ) / 8) = "46.88" := by
    rw [@toFixed2_eval ((375 : ℚ) / 8) 4688 (by norm_num)]
    decide
  refine ⟨calculateBMI_120_160, by norm_num, hf, ?_⟩
  rw [hf]
  decide

/-- Witness for C8 at zero height. -/
theorem calculateBMI_spec_wit :
    calculateBMI 3 0 = Except.error (Message.Error "Height cannot be zero.") :=
  (calculateBMI_spec.1 3 0).1 rfl

end TeleHealth
